import Mathlib

/-!
Shallow embedding of the Kevo Plus client library
(`custom_components/kevo_plus/aiokevoplus/__init__.py`) and verification of
spec claims about it.

HTTP traffic is modelled by environments that give the status/body of each
successive request; the library's control flow (status checks, exception
handlers, state mutation order) is translated statement by statement.
Battery levels are opaque scalars (modelled as `Nat`): the code only copies
them, never computes with them.
-/

namespace Kevo

/-- Modelled from the spec: `aiokevoplus/const.py` is not under `src/`; the
bolt-state constant strings are taken from the spec's bolt-state mapping
table (§8) and glossary, matching the literal strings used by
`KevoLock.__init__`. -/
def LOCK_STATE_LOCK : String := "Locked"

/-- Modelled from the spec: unlocked bolt state (see `LOCK_STATE_LOCK`). -/
def LOCK_STATE_UNLOCK : String := "Unlocked"

/-- Modelled from the spec: jammed bolt state, matching the literal
`"BoltJam"` in `KevoLock.__init__`. -/
def LOCK_STATE_JAM : String := "BoltJam"

/-- Modelled from the spec: locked-and-jammed bolt state. -/
def LOCK_STATE_LOCK_JAM : String := "LockedBoltJam"

/-- Modelled from the spec: unlocked-and-jammed bolt state. -/
def LOCK_STATE_UNLOCK_JAM : String := "UnlockedBoltJam"

/-- Modelled from the spec: command status "Complete" (§8). -/
def COMMAND_STATUS_COMPLETE : String := "Complete"

/-- Modelled from the spec: command status "Cancelled" (§8). -/
def COMMAND_STATUS_CANCELLED : String := "Cancelled"

/-- Modelled from the spec: command status "Processing" (§8). -/
def COMMAND_STATUS_PROCESSING : String := "Processing"

/-- Modelled from the spec: command status "Delivered" (§4.4). -/
def COMMAND_STATUS_DELIVERED : String := "Delivered"

/-- `KevoApi.MAX_RECONNECT_DELAY`. -/
def MAX_RECONNECT_DELAY : Nat := 240

/-- The Token Set held by `KevoApi`: `_access_token`, `_id_token`,
`_refresh_token`, `_expires_at`. -/
structure TokenSet where
  access_token : String
  id_token : String
  refresh_token : String
  expires_at : Int
deriving DecidableEq, Repr

/-- The JSON body (and HTTP status) of a response of the token endpoint
`POST /connect/token`.  A key missing from the JSON dict is `none`
(accessing it raises `KeyError` in the Python). -/
structure TokenResponse where
  status : Nat
  access_token : Option String
  id_token : Option String
  refresh_token : Option String
  expires_in : Option Int
deriving DecidableEq, Repr

/-- Failure modes of `async_refresh_token`: a non-2xx response
(`raise_for_status`) or a missing JSON key (`KeyError`). -/
inductive RefreshError where
  | httpStatus (code : Nat)
  | keyError
deriving DecidableEq, Repr

/-- `KevoApi.async_refresh_token`, line by line: `raise_for_status`, then the
four sequential field assignments.  Returns the token state as mutated so
far together with the error, if any, so that partial mutation on a failure
mid-sequence is observable exactly as in the Python. -/
def async_refresh_token (now : Int) (resp : TokenResponse) (ts : TokenSet) :
    TokenSet × Option RefreshError :=
  if ¬(200 ≤ resp.status ∧ resp.status < 300) then
    (ts, some (.httpStatus resp.status))
  else
    match resp.access_token with
    | none => (ts, some .keyError)
    | some atk =>
      let ts := { ts with access_token := atk }
      match resp.id_token with
      | none => (ts, some .keyError)
      | some idt =>
        let ts := { ts with id_token := idt }
        match resp.refresh_token with
        | none => (ts, some .keyError)
        | some rtk =>
          let ts := { ts with refresh_token := rtk }
          match resp.expires_in with
          | none => (ts, some .keyError)
          | some ei => ({ ts with expires_at := now + ei }, none)

/-- Environment for one `_api_post` call: the current time, the response of
the i-th refresh POST, and the status/parsed body of the i-th POST of the
operation's own URL. -/
structure ApiEnv where
  now : Int
  refreshResp : Nat → TokenResponse
  callStatus : Nat → Nat
  callBody : Nat → String

/-- Outcome of a REST operation. -/
inductive ApiResult where
  | ok (body : String)
  | authError
  | permissionError
  | httpError (code : Nat)
  | refreshError (e : RefreshError)
deriving DecidableEq, Repr

/-- Observable trace of a REST operation: how many refresh POSTs were
issued, the access token present at each `__get_headers` call, and the
access token carried by each issued request of the operation's URL. -/
structure ApiTrace where
  refreshes : Nat
  headerTokens : List String
  callTokens : List String
deriving DecidableEq, Repr

/-- `KevoApi._api_post`: expiry check and refresh, header build, POST;
on 403 refresh again, rebuild headers, retry once; a second 403 raises
`KevoAuthError`, a 401 raises `KevoPermissionError`, other non-2xx
propagate. -/
def api_post (env : ApiEnv) (ts0 : TokenSet) :
    TokenSet × ApiTrace × ApiResult :=
  -- "Reauth if needed" (line 220)
  let pre : TokenSet × ApiTrace × Option RefreshError :=
    if ts0.expires_at < env.now + 100 then
      let r := async_refresh_token env.now (env.refreshResp 0) ts0
      (r.1, ⟨1, [], []⟩, r.2)
    else
      (ts0, ⟨0, [], []⟩, none)
  let ts1 := pre.1
  let tr1 := pre.2.1
  match pre.2.2 with
  | some e => (ts1, tr1, .refreshError e)
  | none =>
    -- headers = await self.__get_headers() (line 223)
    let tr2 := { tr1 with headerTokens := tr1.headerTokens ++ [ts1.access_token] }
    let s0 := env.callStatus 0
    let tr3 := { tr2 with callTokens := tr2.callTokens ++ [ts1.access_token] }
    if 200 ≤ s0 ∧ s0 < 300 then
      (ts1, tr3, .ok (env.callBody 0))
    else if s0 = 403 then
      let r2 := async_refresh_token env.now (env.refreshResp tr3.refreshes) ts1
      let ts2 := r2.1
      let tr4 := { tr3 with refreshes := tr3.refreshes + 1 }
      match r2.2 with
      | some e => (ts2, tr4, .refreshError e)
      | none =>
        let tr5 := { tr4 with headerTokens := tr4.headerTokens ++ [ts2.access_token] }
        let s1 := env.callStatus 1
        let tr6 := { tr5 with callTokens := tr5.callTokens ++ [ts2.access_token] }
        if 200 ≤ s1 ∧ s1 < 300 then
          (ts2, tr6, .ok (env.callBody 1))
        else if s1 = 403 then
          (ts2, tr6, .authError)
        else
          (ts2, tr6, .httpError s1)
    else if s0 = 401 then
      (ts1, tr3, .permissionError)
    else
      (ts1, tr3, .httpError s0)

/-- One entry of the `"locks"` array of the device-list response. -/
structure LockJson where
  id : String
  name : String
  firmwareVersion : String
  batteryLevel : Nat
  boltState : String
  brand : String
deriving DecidableEq, Repr

/-- A `KevoLock` Device record.  `is_locked`/`is_jammed` are tri-state
(`none` = unknown, set only by the stream path). -/
structure Device where
  lock_id : String
  name : String
  firmware : String
  battery_level : Nat
  is_locking : Bool
  is_unlocking : Bool
  is_locked : Option Bool
  is_jammed : Option Bool
  brand : String
deriving DecidableEq, Repr

/-- `KevoLock.__init__`: builds a Device record from one device-list entry.
The constructor compares the bolt state against literal strings and assigns
plain booleans (never `None`), with no logging. -/
def KevoLock_init (l : LockJson) : Device :=
  { lock_id := l.id
    name := l.name
    firmware := l.firmwareVersion
    battery_level := l.batteryLevel
    is_locking := false
    is_unlocking := false
    is_locked :=
      if l.boltState = "Locked" ∨ l.boltState = "LockedBoltJam" then
        some true
      else
        some false
    is_jammed :=
      if l.boltState = "BoltJam" ∨ l.boltState = "UnlockedBoltJam" ∨
          l.boltState = "LockedBoltJam" then
        some true
      else
        some false
    brand := l.brand }

/-- Environment for one `get_locks` call (same shape as `ApiEnv`, with the
parsed `"locks"` array of the i-th GET of the device-list URL). -/
structure LocksEnv where
  now : Int
  refreshResp : Nat → TokenResponse
  callStatus : Nat → Nat
  callLocks : Nat → List LockJson

/-- Outcome of `get_locks`. -/
inductive LocksResult where
  | ok (devices : List Device)
  | authError
  | permissionError
  | httpError (code : Nat)
  | refreshError (e : RefreshError)
deriving DecidableEq, Repr

/-- The 403 handler of `KevoApi.get_locks` (lines 270-284): refresh,
rebuild headers, retry the GET.  If the retry succeeds (2xx), control falls
through the inner handler to the unconditional `raise KevoAuthError()`
(line 284); a 403 retry also raises `KevoAuthError`; any other retry status
re-raises the HTTP error. -/
def get_locks_on_403 (env : LocksEnv) (ts1 : TokenSet) (tr2 : ApiTrace)
    (devs0 : List Device) : TokenSet × ApiTrace × List Device × LocksResult :=
  let r2 := async_refresh_token env.now (env.refreshResp tr2.refreshes) ts1
  let ts2 := r2.1
  let tr3 := { tr2 with refreshes := tr2.refreshes + 1 }
  match r2.2 with
  | some e => (ts2, tr3, devs0, .refreshError e)
  | none =>
    let tr4 := { tr3 with headerTokens := tr3.headerTokens ++ [ts2.access_token] }
    let s1 := env.callStatus 1
    let tr5 := { tr4 with callTokens := tr4.callTokens ++ [ts2.access_token] }
    if 200 ≤ s1 ∧ s1 < 300 then
      -- retry succeeded, yet line 284 still raises KevoAuthError
      (ts2, tr5, devs0, .authError)
    else if s1 = 403 then
      (ts2, tr5, devs0, .authError)
    else
      (ts2, tr5, devs0, .httpError s1)

/-- The GET and status dispatch of `KevoApi.get_locks` (lines 263-305).
`headerToken` is the access token baked into the headers that were built
back at line 257.  On success the devices list is rebuilt from scratch from
the response (`self._devices = []`, lines 291-305). -/
def get_locks_fetch (env : LocksEnv) (headerToken : String) (ts1 : TokenSet)
    (tr1 : ApiTrace) (devs0 : List Device) :
    TokenSet × ApiTrace × List Device × LocksResult :=
  let s0 := env.callStatus 0
  -- the GET is issued with the headers built BEFORE the refresh
  let tr2 := { tr1 with callTokens := tr1.callTokens ++ [headerToken] }
  if 200 ≤ s0 ∧ s0 < 300 then
    let devs1 := (env.callLocks 0).map KevoLock_init
    (ts1, tr2, devs1, .ok devs1)
  else if s0 = 403 then
    get_locks_on_403 env ts1 tr2 devs0
  else if s0 = 401 then
    (ts1, tr2, devs0, .permissionError)
  else
    (ts1, tr2, devs0, .httpError s0)

/-- `KevoApi.get_locks`, statement by statement.  Note the source order:
headers are built (line 257) BEFORE the expiry check (line 260), so the GET
carries the access token from before any pre-call refresh. -/
def get_locks (env : LocksEnv) (ts0 : TokenSet) (devs0 : List Device) :
    TokenSet × ApiTrace × List Device × LocksResult :=
  -- headers = await self.__get_headers() (line 257)
  let tr0 : ApiTrace := ⟨0, [ts0.access_token], []⟩
  -- "Reauth if needed" (line 260)
  let pre : TokenSet × ApiTrace × Option RefreshError :=
    if ts0.expires_at < env.now + 100 then
      let r := async_refresh_token env.now (env.refreshResp 0) ts0
      (r.1, { tr0 with refreshes := 1 }, r.2)
    else
      (ts0, tr0, none)
  match pre.2.2 with
  | some e => (pre.1, pre.2.1, devs0, .refreshError e)
  | none => get_locks_fetch env ts0.access_token pre.1 pre.2.1 devs0

/-- The `"command"` sub-object of a lock-status frame. -/
structure CommandJson where
  status : String
  type : String
deriving DecidableEq, Repr

/-- The `"messageData"` object of a stream frame. -/
structure FrameData where
  lockId : String
  batteryLevel : Nat
  boltState : String
  command : Option CommandJson
deriving DecidableEq, Repr

/-- A parsed stream frame (the JSON body of one websocket message). -/
structure Frame where
  messageType : String
  messageData : FrameData
deriving DecidableEq, Repr

/-- The field mutations `__process_message` performs on the located Device
record (lines 418-459): unconditional battery update, bolt-state dispatch,
then command-status dispatch.  The returned flag records whether the
unknown-bolt-state warning was logged. -/
def update_lock (prev : Device) (d : FrameData) : Device × Bool :=
  let l1 := { prev with battery_level := d.batteryLevel }
  let boltUpd : Device × Bool :=
    if d.boltState = LOCK_STATE_LOCK then
      ({ l1 with is_locked := some true, is_jammed := some false }, false)
    else if d.boltState = LOCK_STATE_UNLOCK then
      ({ l1 with is_locked := some false, is_jammed := some false }, false)
    else if d.boltState = LOCK_STATE_JAM then
      ({ l1 with is_jammed := some true }, false)
    else if d.boltState = LOCK_STATE_LOCK_JAM then
      ({ l1 with is_jammed := some true, is_locked := some true }, false)
    else if d.boltState = LOCK_STATE_UNLOCK_JAM then
      ({ l1 with is_jammed := some true, is_locked := some false }, false)
    else
      ({ l1 with is_jammed := none, is_locked := none }, true)
  let (l2, warned) := boltUpd
  let l3 :=
    match d.command with
    | none => l2
    | some cmd =>
      if cmd.status = COMMAND_STATUS_COMPLETE ∨
          cmd.status = COMMAND_STATUS_CANCELLED then
        { l2 with is_locking := false, is_unlocking := false }
      else if cmd.status = COMMAND_STATUS_PROCESSING ∨
          cmd.status = COMMAND_STATUS_DELIVERED then
        if cmd.type = LOCK_STATE_LOCK then
          { l2 with is_locking := true, is_unlocking := false }
        else
          { l2 with is_locking := false, is_unlocking := true }
      else l2
  (l3, warned)

/-- Replace the first Device whose `lock_id` matches by the updated record:
the Python mutates the object found by `next(...)` in place inside
`self._devices`. -/
def set_lock : List Device → String → Device → List Device
  | [], _, _ => []
  | x :: xs, lid, upd =>
      if x.lock_id = lid then upd :: xs else x :: set_lock xs lid upd

/-- Result of processing one frame: the devices list, the list of callbacks
dispatched to (in order), and whether the unknown-bolt-state warning was
logged. -/
structure ProcessResult where
  devices : List Device
  dispatched : List Nat
  warned : Bool
deriving DecidableEq, Repr

/-- The body of `KevoApi.__process_message` inside its `try`.  `next(...)`
with no default raises `StopIteration` when no tracked device matches
(`.error`); observer callbacks are dispatched to every registered callback,
each one's failure being caught individually (so dispatch is unconditional
here).  Callbacks are identified by `Nat` tokens (Python compares the
function objects by identity). -/
def process_message_inner (devs : List Device) (cbs : List Nat) (f : Frame) :
    Except String ProcessResult :=
  if f.messageType = "LockStatus" then
    let d := f.messageData
    match devs.find? (fun x => x.lock_id = d.lockId) with
    | none => .error "StopIteration"
    | some lock =>
      let (upd, warned) := update_lock lock d
      .ok ⟨set_lock devs d.lockId upd, cbs, warned⟩
  else
    .ok ⟨devs, [], false⟩

/-- `KevoApi.__process_message`: the outer `except Exception` logs and
swallows any error raised by the body, so processing always returns to the
stream loop; a body error occurs before any mutation or dispatch. -/
def process_message (devs : List Device) (cbs : List Nat) (f : Frame) :
    ProcessResult :=
  match process_message_inner devs cbs f with
  | .ok r => r
  | .error _ => ⟨devs, [], false⟩

/-- `KevoApi.__websocket_reconnect`: pre-increment the attempt counter,
compute `2 ** attempts`, cap at `MAX_RECONNECT_DELAY`.  Returns the new
counter and the delay slept. -/
def websocket_reconnect_step (attempts : Nat) : Nat × Nat :=
  let attempts := attempts + 1
  let d := 2 ^ attempts
  (attempts, if d > MAX_RECONNECT_DELAY then MAX_RECONNECT_DELAY else d)

/-- `self._reconnect_attempts = 0` on every successful websocket connect
(line 511) and in `websocket_connect` (line 528). -/
def reconnect_reset (_ : Nat) : Nat := 0

/-- Attempt counter after `k` consecutive failures starting from a fresh
(or just-reset) counter. -/
def counter_after : Nat → Nat
  | 0 => 0
  | k + 1 => (websocket_reconnect_step (counter_after k)).1

/-- Delay slept for the `(k+1)`-th consecutive failure. -/
def delay_at (k : Nat) : Nat := (websocket_reconnect_step (counter_after k)).2

/-- `KevoApi.register_callback` appends the callback to `self._callbacks`
and returns a closure that removes it again. -/
def register_callback (cbs : List Nat) (c : Nat) : List Nat := cbs ++ [c]

/-- Python `list.remove`: delete the first element equal to `c`; `none`
models the `ValueError` raised when no element matches. -/
def list_remove : List Nat → Nat → Option (List Nat)
  | [], _ => none
  | x :: xs, c => if x = c then some xs else (list_remove xs c).map (x :: ·)

/-- `KevoApi.unregister_callback` (and the closure returned by
`register_callback`): `self._callbacks.remove(callback)`. -/
def unregister_callback (cbs : List Nat) (c : Nat) : Option (List Nat) :=
  list_remove cbs c

/-- `int_val` inside `__generate_certificate`: four little-endian bytes of
the value. -/
def int_val (b : Nat) : List Nat :=
  [b % 256, b / 2 ^ 8 % 256, b / 2 ^ 16 % 256, b / 2 ^ 24 % 256]

/-- `short_val`: two little-endian bytes of the value. -/
def short_val (b : Nat) : List Nat :=
  [b % 256, b / 2 ^ 8 % 256]

/-- The five dash-separated groups of a UUID string, each already parsed
into its byte values (2 hex characters per byte, in string order), so the
groups of a standard UUID have lengths 4, 2, 2, 2, 6. -/
structure UuidGroups where
  g1 : List Nat
  g2 : List Nat
  g3 : List Nat
  g4 : List Nat
  g5 : List Nat
deriving DecidableEq, Repr

/-- `uuid_to_bytes`: the first three groups are byte-reversed, the last two
are not, and the whole result is reversed. -/
def uuid_to_bytes (u : UuidGroups) : List Nat :=
  (u.g1.reverse ++ u.g2.reverse ++ u.g3.reverse ++ u.g4 ++ u.g5).reverse

/-- `length_encoded_bytes`: 1-byte tag, 2-byte little-endian length, then
the value bytes. -/
def length_encoded_bytes (tag : Nat) (arr : List Nat) : List Nat :=
  tag :: (short_val arr.length ++ arr)

/-- The all-zero UUID `"00000000-0000-0000-0000-000000000000"`, as groups of
parsed bytes. -/
def zero_uuid : UuidGroups :=
  ⟨[0, 0, 0, 0], [0, 0], [0, 0], [0, 0], [0, 0, 0, 0, 0, 0]⟩

/-- `KevoApi.__generate_certificate` up to the final base64 step: the byte
blob `s`.  `e` is `int(time.time())`; `r1`, `r2` are the two 32-byte random
fields (`random_bytes(32)`), made explicit inputs here; `devId` is the
device id's UUID string, as parsed groups. -/
def generate_certificate_bytes (devId : UuidGroups) (e : Nat)
    (r1 r2 : List Nat) : List Nat :=
  [17, 1, 0, 1, 19, 1, 0, 1, 16, 1, 0, 48] ++
    length_encoded_bytes 18 (int_val 1) ++
    length_encoded_bytes 20 (int_val e) ++
    length_encoded_bytes 21 (int_val e) ++
    length_encoded_bytes 22 (int_val (e + 86400)) ++
    [48, 1, 0, 6] ++
    length_encoded_bytes 49 (uuid_to_bytes zero_uuid) ++
    length_encoded_bytes 50 (uuid_to_bytes devId) ++
    length_encoded_bytes 53 r1 ++
    length_encoded_bytes 54 r2

/-- Decoder step for the blob's field format, with explicit fuel (one unit
per field): read a 1-byte tag, a 2-byte little-endian length and that many
value bytes; fails on a truncated blob. -/
def parse_fields_fuel : Nat → List Nat → Option (List (Nat × List Nat))
  | _, [] => some []
  | 0, _ :: _ => none
  | fuel + 1, t :: lo :: hi :: rest =>
      let n := lo + 256 * hi
      if n ≤ rest.length then
        (parse_fields_fuel fuel (rest.drop n)).map (fun fs => (t, rest.take n) :: fs)
      else
        none
  | _ + 1, [_] => none
  | _ + 1, [_, _] => none

/-- Decoder for the blob's field format: each field consumes at least three
bytes, so the blob's length bounds the number of fields. -/
def parse_fields (l : List Nat) : Option (List (Nat × List Nat)) :=
  parse_fields_fuel l.length l

/-- Inverse of the `uuid_to_bytes` transform for a standard 16-byte UUID:
undo the outer reversal, then split into groups of 4, 2, 2, 2, 6 bytes and
byte-reverse the first three. -/
def uuid_from_bytes (b : List Nat) : UuidGroups :=
  let r := b.reverse
  { g1 := (r.take 4).reverse
    g2 := ((r.drop 4).take 2).reverse
    g3 := ((r.drop 6).take 2).reverse
    g4 := (r.drop 8).take 2
    g5 := r.drop 10 }

/-- The blob `s` built by `__generate_certificate`, seen as a list of
tag/value fields in encoding order (the literal header bytes
`[17,1,0,1, 19,1,0,1, 16,1,0,48]` and `[48,1,0,6]` are themselves the
fields `(17,[1])`, `(19,[1])`, `(16,[48])` and `(48,[6])`). -/
def certificate_fields (devId : UuidGroups) (e : Nat) (r1 r2 : List Nat) :
    List (Nat × List Nat) :=
  [(17, [1]), (19, [1]), (16, [48]), (18, int_val 1), (20, int_val e),
    (21, int_val e), (22, int_val (e + 86400)), (48, [6]),
    (49, uuid_to_bytes zero_uuid), (50, uuid_to_bytes devId), (53, r1), (54, r2)]

/-- Concatenation of length-prefixed encodings of a field list. -/
def encode_fields (fs : List (Nat × List Nat)) : List Nat :=
  (fs.map fun p => length_encoded_bytes p.1 p.2).flatten

/-- A sample standard-shape UUID (groups of 4, 2, 2, 2, 6 bytes). -/
def sample_uuid : UuidGroups :=
  ⟨[1, 2, 3, 4], [5, 6], [7, 8], [9, 10], [11, 12, 13, 14, 15, 16]⟩

/-! ## Helper lemmas -/

theorem generate_certificate_bytes_eq (u : UuidGroups) (e : Nat)
    (r1 r2 : List Nat) :
    generate_certificate_bytes u e r1 r2 =
      encode_fields (certificate_fields u e r1 r2) := by
  simp [generate_certificate_bytes, encode_fields, certificate_fields,
    length_encoded_bytes, short_val]

theorem parse_fields_fuel_encode (fuel t : Nat) (v rest : List Nat)
    (hv : v.length < 65536) :
    parse_fields_fuel (fuel + 1) (length_encoded_bytes t v ++ rest) =
      (parse_fields_fuel fuel rest).map (fun fs => (t, v) :: fs) := by
  have happ : length_encoded_bytes t v ++ rest =
      t :: v.length % 256 :: v.length / 2 ^ 8 % 256 :: (v ++ rest) := by
    simp [length_encoded_bytes, short_val]
  rw [happ]
  have h256 : (2 : Nat) ^ 8 = 256 := by norm_num
  have hn : v.length % 256 + 256 * (v.length / 2 ^ 8 % 256) = v.length := by
    rw [h256]
    omega
  simp only [parse_fields_fuel, hn]
  rw [if_pos (by simp)]
  rw [List.take_left' (rfl : v.length = v.length),
    List.drop_left' (rfl : v.length = v.length)]

theorem parse_encode_fields (fs : List (Nat × List Nat)) (fuel : Nat)
    (hfs : ∀ p ∈ fs, p.2.length < 65536) (hfuel : fs.length ≤ fuel) :
    parse_fields_fuel fuel (encode_fields fs) = some fs := by
  induction fs generalizing fuel with
  | nil => cases fuel <;> rfl
  | cons p ps ih =>
    obtain ⟨f, rfl⟩ : ∃ f, fuel = f + 1 := ⟨fuel - 1, by simp at hfuel; omega⟩
    have henc : encode_fields (p :: ps) =
        length_encoded_bytes p.1 p.2 ++ encode_fields ps := by
      simp [encode_fields]
    rw [henc, parse_fields_fuel_encode f p.1 p.2 _ (hfs p (by simp)),
      ih f (fun q hq => hfs q (List.mem_cons_of_mem p hq))
        (by simp at hfuel; omega)]
    rfl

theorem uuid_to_bytes_length (u : UuidGroups) (h1 : u.g1.length = 4)
    (h2 : u.g2.length = 2) (h3 : u.g3.length = 2) (h4 : u.g4.length = 2)
    (h5 : u.g5.length = 6) : (uuid_to_bytes u).length = 16 := by
  simp [uuid_to_bytes, h1, h2, h3, h4, h5]

theorem uuid_round (u : UuidGroups) (h1 : u.g1.length = 4)
    (h2 : u.g2.length = 2) (h3 : u.g3.length = 2) (h4 : u.g4.length = 2) :
    uuid_from_bytes (uuid_to_bytes u) = u := by
  obtain ⟨g1, g2, g3, g4, g5⟩ := u
  simp only at h1 h2 h3 h4
  simp only [uuid_to_bytes, uuid_from_bytes, List.reverse_reverse]
  have hd4 : (g1.reverse ++ (g2.reverse ++ (g3.reverse ++ (g4 ++ g5)))).drop 4 =
      g2.reverse ++ (g3.reverse ++ (g4 ++ g5)) := List.drop_left' (by simp [h1])
  have hd6 : (g1.reverse ++ (g2.reverse ++ (g3.reverse ++ (g4 ++ g5)))).drop 6 =
      g3.reverse ++ (g4 ++ g5) := by
    have h6 : (6 : Nat) = 4 + 2 := by norm_num
    rw [h6, ← List.drop_drop, hd4, List.drop_left' (by simp [h2])]
  have hd8 : (g1.reverse ++ (g2.reverse ++ (g3.reverse ++ (g4 ++ g5)))).drop 8 =
      g4 ++ g5 := by
    have h8 : (8 : Nat) = 6 + 2 := by norm_num
    rw [h8, ← List.drop_drop, hd6, List.drop_left' (by simp [h3])]
  have hd10 : (g1.reverse ++ (g2.reverse ++ (g3.reverse ++ (g4 ++ g5)))).drop 10 =
      g5 := by
    have h10 : (10 : Nat) = 8 + 2 := by norm_num
    rw [h10, ← List.drop_drop, hd8, List.drop_left' h4]
  simp only [List.append_assoc, UuidGroups.mk.injEq] at hd4 hd6 hd8 hd10 ⊢
  refine ⟨?_, ?_, ?_, ?_, ?_⟩
  · rw [List.take_left' (by simp [h1]), List.reverse_reverse]
  · rw [hd4, List.take_left' (by simp [h2]), List.reverse_reverse]
  · rw [hd6, List.take_left' (by simp [h3]), List.reverse_reverse]
  · rw [hd8, List.take_left' h4]
  · exact hd10

theorem websocket_reconnect_step_fst (a : Nat) :
    (websocket_reconnect_step a).1 = a + 1 := rfl

theorem websocket_reconnect_step_snd (a : Nat) :
    (websocket_reconnect_step a).2 = min (2 ^ (a + 1)) MAX_RECONNECT_DELAY := by
  show (if 2 ^ (a + 1) > MAX_RECONNECT_DELAY then MAX_RECONNECT_DELAY
        else 2 ^ (a + 1)) = _
  rcases Nat.lt_or_ge MAX_RECONNECT_DELAY (2 ^ (a + 1)) with h | h
  · simp [h, Nat.min_eq_right (Nat.le_of_lt h)]
  · simp [Nat.not_lt.mpr h, Nat.min_eq_left h]

theorem counter_after_eq (k : Nat) : counter_after k = k := by
  induction k with
  | zero => rfl
  | succ k ih => simp [counter_after, websocket_reconnect_step_fst, ih]

theorem list_remove_count (cbs : List Nat) (c : Nat) (l : List Nat)
    (h : list_remove cbs c = some l) : l.count c + 1 = cbs.count c := by
  induction cbs generalizing l with
  | nil => simp [list_remove] at h
  | cons x xs ih =>
    by_cases hx : x = c
    · subst hx
      simp [list_remove] at h
      subst h
      simp [List.count_cons_self]
    · simp [list_remove, hx] at h
      obtain ⟨l', hl', rfl⟩ := h
      have := ih l' hl'
      simp [List.count_cons, hx]
      omega

theorem list_remove_not_mem (cbs : List Nat) (c : Nat) (h : c ∉ cbs) :
    list_remove cbs c = none := by
  induction cbs with
  | nil => rfl
  | cons x xs ih =>
    simp only [List.mem_cons, not_or] at h
    simp [list_remove, Ne.symm h.1, ih h.2]

theorem list_remove_append_singleton (cbs : List Nat) (c : Nat) (h : c ∉ cbs) :
    list_remove (cbs ++ [c]) c = some cbs := by
  induction cbs with
  | nil => simp [list_remove]
  | cons x xs ih =>
    simp only [List.mem_cons, not_or] at h
    simp [list_remove, Ne.symm h.1, ih h.2]

theorem update_lock_lock_id (prev : Device) (d : FrameData) :
    (update_lock prev d).1.lock_id = prev.lock_id := by
  simp only [update_lock]
  cases d.command <;> dsimp only <;> split_ifs <;> rfl

theorem update_lock_locked (prev : Device) (d : FrameData)
    (h : d.boltState = LOCK_STATE_LOCK) :
    (update_lock prev d).1.is_locked = some true ∧
    (update_lock prev d).1.is_jammed = some false ∧
    (update_lock prev d).2 = false := by
  simp only [update_lock, h]
  cases d.command <;> dsimp only <;> split_ifs <;> simp_all [LOCK_STATE_LOCK,
    LOCK_STATE_UNLOCK, LOCK_STATE_JAM, LOCK_STATE_LOCK_JAM, LOCK_STATE_UNLOCK_JAM]

theorem update_lock_lock_jam (prev : Device) (d : FrameData)
    (h : d.boltState = LOCK_STATE_LOCK_JAM) :
    (update_lock prev d).1.is_locked = some true ∧
    (update_lock prev d).1.is_jammed = some true ∧
    (update_lock prev d).2 = false := by
  simp only [update_lock, h]
  cases d.command <;> dsimp only <;> split_ifs <;> simp_all [LOCK_STATE_LOCK,
    LOCK_STATE_UNLOCK, LOCK_STATE_JAM, LOCK_STATE_LOCK_JAM]

theorem update_lock_unlock_jam (prev : Device) (d : FrameData)
    (h : d.boltState = LOCK_STATE_UNLOCK_JAM) :
    (update_lock prev d).1.is_locked = some false ∧
    (update_lock prev d).1.is_jammed = some true ∧
    (update_lock prev d).2 = false := by
  simp only [update_lock, h]
  cases d.command <;> dsimp only <;> split_ifs <;> simp_all [LOCK_STATE_LOCK,
    LOCK_STATE_UNLOCK, LOCK_STATE_JAM, LOCK_STATE_LOCK_JAM, LOCK_STATE_UNLOCK_JAM]

theorem update_lock_unknown (prev : Device) (d : FrameData)
    (h1 : d.boltState ≠ LOCK_STATE_LOCK) (h2 : d.boltState ≠ LOCK_STATE_UNLOCK)
    (h3 : d.boltState ≠ LOCK_STATE_JAM) (h4 : d.boltState ≠ LOCK_STATE_LOCK_JAM)
    (h5 : d.boltState ≠ LOCK_STATE_UNLOCK_JAM) :
    (update_lock prev d).1.is_locked = none ∧
    (update_lock prev d).1.is_jammed = none ∧
    (update_lock prev d).2 = true := by
  simp only [update_lock, h1, h2, h3, h4, h5, if_neg]
  cases d.command <;> dsimp only <;> split_ifs <;> simp_all

theorem KevoLock_init_locked (l : LockJson) (h : l.boltState = "Locked") :
    (KevoLock_init l).is_locked = some true ∧
    (KevoLock_init l).is_jammed = some false := by
  simp [KevoLock_init, h]

theorem KevoLock_init_lock_jam (l : LockJson) (h : l.boltState = "LockedBoltJam") :
    (KevoLock_init l).is_locked = some true ∧
    (KevoLock_init l).is_jammed = some true := by
  simp [KevoLock_init, h]

theorem KevoLock_init_unlock_jam (l : LockJson) (h : l.boltState = "UnlockedBoltJam") :
    (KevoLock_init l).is_locked = some false ∧
    (KevoLock_init l).is_jammed = some true := by
  simp [KevoLock_init, h]

theorem KevoLock_init_unknown (l : LockJson)
    (h1 : l.boltState ≠ "Locked") (h2 : l.boltState ≠ "LockedBoltJam")
    (h3 : l.boltState ≠ "BoltJam") (h4 : l.boltState ≠ "UnlockedBoltJam") :
    (KevoLock_init l).is_locked = some false ∧
    (KevoLock_init l).is_jammed = some false := by
  simp [KevoLock_init, h1, h2, h3, h4]

theorem set_lock_map_lock_id (devs : List Device) (lid : String) (upd : Device)
    (h : upd.lock_id = lid) :
    (set_lock devs lid upd).map Device.lock_id = devs.map Device.lock_id := by
  induction devs with
  | nil => rfl
  | cons x xs ih =>
    by_cases hx : x.lock_id = lid
    · simp [set_lock, hx, h]
    · simp [set_lock, hx, ih]

theorem set_lock_get_ne (devs : List Device) (lid : String) (upd : Device)
    (i : Nat) (d : Device) (hi : devs.get? i = some d) (hne : d.lock_id ≠ lid) :
    (set_lock devs lid upd).get? i = some d := by
  induction devs generalizing i with
  | nil => simp at hi
  | cons x xs ih =>
    by_cases hx : x.lock_id = lid
    · cases i with
      | zero =>
        simp at hi
        subst hi
        exact absurd hx hne
      | succ i => simpa [set_lock, hx] using hi
    · cases i with
      | zero => simpa [set_lock, hx] using hi
      | succ i =>
        simp only [set_lock, hx, if_neg]
        simpa [List.get?] using ih i (by simpa using hi)

theorem process_message_map_lock_id (devs : List Device) (cbs : List Nat)
    (f : Frame) :
    ((process_message devs cbs f).devices).map Device.lock_id =
      devs.map Device.lock_id := by
  by_cases hty : f.messageType = "LockStatus"
  · simp only [process_message, process_message_inner, hty, if_pos]
    cases hfind : devs.find? (fun x => x.lock_id = f.messageData.lockId) with
    | none => rfl
    | some lock =>
      have hl : lock.lock_id = f.messageData.lockId := by
        have := List.find?_some hfind
        simpa using this
      dsimp only
      exact set_lock_map_lock_id devs _ _ (by rw [update_lock_lock_id, hl])
  · simp [process_message, process_message_inner, hty]

theorem process_message_other_unchanged (devs : List Device) (cbs : List Nat)
    (f : Frame) (i : Nat) (d : Device) (hi : devs.get? i = some d)
    (hne : d.lock_id ≠ f.messageData.lockId) :
    (process_message devs cbs f).devices.get? i = some d := by
  by_cases hty : f.messageType = "LockStatus"
  · simp only [process_message, process_message_inner, hty, if_pos]
    cases hfind : devs.find? (fun x => x.lock_id = f.messageData.lockId) with
    | none => exact hi
    | some lock =>
      dsimp only
      exact set_lock_get_ne devs _ _ i d hi hne
  · simpa [process_message, process_message_inner, hty] using hi

theorem get_locks_on_403_not_ok (env : LocksEnv) (ts1 : TokenSet)
    (tr2 : ApiTrace) (devs0 : List Device) :
    (get_locks_on_403 env ts1 tr2 devs0).2.2.1 = devs0 ∧
    ∀ l, (get_locks_on_403 env ts1 tr2 devs0).2.2.2 ≠ .ok l := by
  simp only [get_locks_on_403]
  cases (async_refresh_token env.now (env.refreshResp tr2.refreshes) ts1).2 with
  | none => dsimp only; split_ifs <;> simp
  | some e => simp

theorem get_locks_fetch_ok (env : LocksEnv) (headerToken : String)
    (ts1 : TokenSet) (tr1 : ApiTrace) (devs0 : List Device) (l : List Device)
    (h : (get_locks_fetch env headerToken ts1 tr1 devs0).2.2.2 = .ok l) :
    l = (env.callLocks 0).map KevoLock_init ∧
    (get_locks_fetch env headerToken ts1 tr1 devs0).2.2.1 =
      (env.callLocks 0).map KevoLock_init := by
  simp only [get_locks_fetch] at h ⊢
  split_ifs at h ⊢ with h1 h2 h3
  all_goals first
  | exact absurd h ((get_locks_on_403_not_ok env ts1 _ devs0).2 l)
  | simp_all

theorem get_locks_ok_rebuild (env : LocksEnv) (ts : TokenSet)
    (devs0 : List Device) (l : List Device)
    (h : (get_locks env ts devs0).2.2.2 = .ok l) :
    l = (env.callLocks 0).map KevoLock_init ∧
    (get_locks env ts devs0).2.2.1 = (env.callLocks 0).map KevoLock_init := by
  simp only [get_locks] at h ⊢
  by_cases hexp : ts.expires_at < env.now + 100
  · simp only [if_pos hexp] at h ⊢
    cases hr : (async_refresh_token env.now (env.refreshResp 0) ts).2 with
    | some e => simp [hr] at h
    | none =>
      simp only [hr] at h ⊢
      exact get_locks_fetch_ok env _ _ _ devs0 l h
  · simp only [if_neg hexp] at h ⊢
    exact get_locks_fetch_ok env _ _ _ devs0 l h

/-! ## Claim theorems -/

/-- C1: with a valid token, a 403 on the first device-list GET, a successful
token refresh (new access token `"B"`) and a 2xx retry, `get_locks` performs
the refresh and the retry with the fresh token — yet still raises
`KevoAuthError` instead of returning the parsed response, because of the
unconditional `raise KevoAuthError()` after the retry's status check
(line 284).  On the same scenario `_api_post` returns the parsed body, as
the claim states. -/
theorem C1_get_locks_retry_success_still_raises_auth_error :
    (get_locks
        { now := 0
          refreshResp := fun _ => ⟨200, some "B", some "I2", some "R2", some 3600⟩
          callStatus := fun i => if i = 0 then 403 else 200
          callLocks := fun _ => [] }
        ⟨"A", "I", "R", 1000000⟩ []).2.1.refreshes = 1 ∧
    (get_locks
        { now := 0
          refreshResp := fun _ => ⟨200, some "B", some "I2", some "R2", some 3600⟩
          callStatus := fun i => if i = 0 then 403 else 200
          callLocks := fun _ => [] }
        ⟨"A", "I", "R", 1000000⟩ []).2.1.callTokens = ["A", "B"] ∧
    (get_locks
        { now := 0
          refreshResp := fun _ => ⟨200, some "B", some "I2", some "R2", some 3600⟩
          callStatus := fun i => if i = 0 then 403 else 200
          callLocks := fun _ => [] }
        ⟨"A", "I", "R", 1000000⟩ []).2.2.2 = .authError ∧
    (api_post
        { now := 0
          refreshResp := fun _ => ⟨200, some "B", some "I2", some "R2", some 3600⟩
          callStatus := fun i => if i = 0 then 403 else 200
          callBody := fun _ => "body" }
        ⟨"A", "I", "R", 1000000⟩).2.2 = .ok "body" := by
  refine ⟨rfl, rfl, rfl, rfl⟩

/-- C2: with an expired token (`expires_at = 0`, `now = 1000`), `get_locks`
triggers the refresh (which installs access token `"B"`), but the GET it
then issues carries the stale token `"A"`, because the headers are built
(line 257) before the expiry check (line 260).  `_api_post` on the same
scenario issues its request with the fresh token `"B"`. -/
theorem C2_get_locks_sends_stale_token_after_refresh :
    (get_locks
        { now := 1000
          refreshResp := fun _ => ⟨200, some "B", some "I2", some "R2", some 3600⟩
          callStatus := fun _ => 200
          callLocks := fun _ => [] }
        ⟨"A", "I", "R", 0⟩ []).2.1.refreshes = 1 ∧
    (get_locks
        { now := 1000
          refreshResp := fun _ => ⟨200, some "B", some "I2", some "R2", some 3600⟩
          callStatus := fun _ => 200
          callLocks := fun _ => [] }
        ⟨"A", "I", "R", 0⟩ []).1.access_token = "B" ∧
    (get_locks
        { now := 1000
          refreshResp := fun _ => ⟨200, some "B", some "I2", some "R2", some 3600⟩
          callStatus := fun _ => 200
          callLocks := fun _ => [] }
        ⟨"A", "I", "R", 0⟩ []).2.1.callTokens = ["A"] ∧
    (api_post
        { now := 1000
          refreshResp := fun _ => ⟨200, some "B", some "I2", some "R2", some 3600⟩
          callStatus := fun _ => 200
          callBody := fun _ => "body" }
        ⟨"A", "I", "R", 0⟩).2.1.callTokens = ["B"] := by
  refine ⟨rfl, rfl, rfl, rfl⟩

/-- C4: reconnect delays for consecutive failures starting from a fresh
counter are `min (2 ^ (k+1)) 240` — i.e. 2, 4, 8, …, capped at 240 — with
the attempt counter pre-incremented before each delay, every delay is at
most 240, and after the counter is reset by a successful connect the next
failure's delay is 2 again. -/
theorem C4_reconnect_backoff (k n : Nat) :
    counter_after k = k ∧
    delay_at k = min (2 ^ (k + 1)) MAX_RECONNECT_DELAY ∧
    delay_at k ≤ 240 ∧
    (websocket_reconnect_step (reconnect_reset n)).2 = 2 := by
  have h1 := counter_after_eq k
  have h2 : delay_at k = min (2 ^ (k + 1)) MAX_RECONNECT_DELAY := by
    rw [delay_at, h1, websocket_reconnect_step_snd]
  refine ⟨h1, h2, ?_, rfl⟩
  rw [h2]
  exact Nat.min_le_right _ _

/-- C6 counterexample: a 2xx token response whose body has `access_token`
but no `id_token` makes `async_refresh_token` fail (`KeyError`) after
having already overwritten `access_token`: the Token Set is left partially
updated, which the claim says never happens. -/
theorem C6_counterexample :
    async_refresh_token 0 ⟨200, some "B", none, none, none⟩ ⟨"A", "I", "R", 5⟩ =
      (⟨"B", "I", "R", 5⟩, some .keyError) ∧
    (⟨"B", "I", "R", 5⟩ : TokenSet) ≠ ⟨"A", "I", "R", 5⟩ := by
  exact ⟨rfl, by decide⟩

/-- C6 amended: on any non-2xx token response `async_refresh_token` leaves
the Token Set entirely unchanged and propagates the HTTP error, and on a
2xx response carrying all four fields it replaces all of
`access_token`, `id_token`, `refresh_token` and `expires_at` together. -/
theorem C6_refresh_all_or_nothing_on_http_status :
    (∀ (now : Int) (resp : TokenResponse) (ts : TokenSet),
      ¬(200 ≤ resp.status ∧ resp.status < 300) →
        async_refresh_token now resp ts = (ts, some (.httpStatus resp.status))) ∧
    (∀ (now : Int) (ts : TokenSet) (s : Nat) (atk idt rtk : String) (ei : Int),
      200 ≤ s → s < 300 →
        async_refresh_token now ⟨s, some atk, some idt, some rtk, some ei⟩ ts =
          (⟨atk, idt, rtk, now + ei⟩, none)) := by
  constructor
  · intro now resp ts h
    simp [async_refresh_token, h]
  · intro now ts s atk idt rtk ei h1 h2
    simp [async_refresh_token, h1, h2]

/-- C6 witness for `C6_refresh_all_or_nothing_on_http_status`. -/
theorem C6_refresh_all_or_nothing_witness :
    async_refresh_token 0 ⟨500, some "B", some "I2", some "R2", some 3600⟩
        ⟨"A", "I", "R", 5⟩ = (⟨"A", "I", "R", 5⟩, some (.httpStatus 500)) ∧
    async_refresh_token 7 ⟨200, some "B", some "I2", some "R2", some 3600⟩
        ⟨"A", "I", "R", 5⟩ = (⟨"B", "I2", "R2", 7 + 3600⟩, none) :=
  ⟨C6_refresh_all_or_nothing_on_http_status.1 0
      ⟨500, some "B", some "I2", some "R2", some 3600⟩ ⟨"A", "I", "R", 5⟩
      (by decide),
    C6_refresh_all_or_nothing_on_http_status.2 7 ⟨"A", "I", "R", 5⟩ 200
      "B" "I2" "R2" 3600 (by decide) (by decide)⟩

/-- C9: a lock-status frame whose `lockId` matches no tracked device makes
the body of `__process_message` raise `StopIteration` (from `next` with no
default) before any mutation or dispatch; the outer handler swallows it, so
the device list is unchanged, no observer is dispatched, and no error
leaves the stream loop. -/
theorem C9_unknown_lock_frame_noop (devs : List Device) (cbs : List Nat)
    (f : Frame) (hty : f.messageType = "LockStatus")
    (hun : ∀ d ∈ devs, d.lock_id ≠ f.messageData.lockId) :
    process_message_inner devs cbs f = .error "StopIteration" ∧
    process_message devs cbs f = ⟨devs, [], false⟩ := by
  have hfind : devs.find? (fun x => x.lock_id = f.messageData.lockId) = none := by
    rw [List.find?_eq_none]
    intro d hd
    simpa using hun d hd
  have hinner : process_message_inner devs cbs f = .error "StopIteration" := by
    simp [process_message_inner, hty, hfind]
  exact ⟨hinner, by simp [process_message, hinner]⟩

/-- C9 witness for `C9_unknown_lock_frame_noop`. -/
theorem C9_unknown_lock_frame_noop_witness :
    process_message [⟨"id1", "n", "f", 7, false, false, some true, some false, "b"⟩]
        [0, 1] ⟨"LockStatus", ⟨"other", 9, "Locked", none⟩⟩ =
      ⟨[⟨"id1", "n", "f", 7, false, false, some true, some false, "b"⟩], [], false⟩ :=
  (C9_unknown_lock_frame_noop
    [⟨"id1", "n", "f", 7, false, false, some true, some false, "b"⟩] [0, 1]
    ⟨"LockStatus", ⟨"other", 9, "Locked", none⟩⟩ rfl (by decide)).2

/-- C8 counterexample: the certificate blob embeds two 32-byte random
fields, so for a fixed device id and a fixed time two runs that draw
different random bytes produce different blobs — the encoding is not
deterministic in (device id, time) alone. -/
theorem C8_counterexample :
    generate_certificate_bytes sample_uuid 1700000000 (List.replicate 32 0)
        (List.replicate 32 9) ≠
      generate_certificate_bytes sample_uuid 1700000000 (List.replicate 32 1)
        (List.replicate 32 9) := by
  decide

/-- C8 amended: the certificate blob is a deterministic function of the
device id, the time (truncated to seconds) and the two 32-byte random
fields; decoding its length-prefixed fields succeeds and the field tagged
50 recovers exactly the transformed device id bytes, and the UUID
byte-order transform (first three groups byte-reversed, last two not,
whole result reversed) round-trips. -/
theorem C8_certificate_decode (u : UuidGroups) (e : Nat) (r1 r2 : List Nat)
    (h1 : u.g1.length = 4) (h2 : u.g2.length = 2) (h3 : u.g3.length = 2)
    (h4 : u.g4.length = 2) (h5 : u.g5.length = 6)
    (hr1 : r1.length = 32) (hr2 : r2.length = 32) :
    parse_fields (generate_certificate_bytes u e r1 r2) =
      some (certificate_fields u e r1 r2) ∧
    (certificate_fields u e r1 r2).lookup 50 = some (uuid_to_bytes u) ∧
    uuid_from_bytes (uuid_to_bytes u) = u := by
  refine ⟨?_, ?_, uuid_round u h1 h2 h3 h4⟩
  · rw [parse_fields, generate_certificate_bytes_eq]
    apply parse_encode_fields
    · intro p hp
      simp only [certificate_fields, List.mem_cons, List.not_mem_nil,
        or_false] at hp
      rcases hp with rfl | rfl | rfl | rfl | rfl | rfl | rfl | rfl | rfl | rfl | rfl | rfl <;>
        simp [int_val, zero_uuid, uuid_to_bytes,
          uuid_to_bytes_length u h1 h2 h3 h4 h5, hr1, hr2]
      all_goals omega
    · show (certificate_fields u e r1 r2).length ≤
        (encode_fields (certificate_fields u e r1 r2)).length
      simp [encode_fields, certificate_fields, length_encoded_bytes, short_val,
        int_val]
  · rfl

/-- C8 witness for `C8_certificate_decode`. -/
theorem C8_certificate_decode_witness :
    parse_fields (generate_certificate_bytes sample_uuid 1700000000
        (List.replicate 32 0) (List.replicate 32 9)) =
      some (certificate_fields sample_uuid 1700000000 (List.replicate 32 0)
        (List.replicate 32 9)) ∧
    (certificate_fields sample_uuid 1700000000 (List.replicate 32 0)
        (List.replicate 32 9)).lookup 50 = some (uuid_to_bytes sample_uuid) ∧
    uuid_from_bytes (uuid_to_bytes sample_uuid) = sample_uuid :=
  C8_certificate_decode sample_uuid 1700000000 (List.replicate 32 0)
    (List.replicate 32 9) rfl rfl rfl rfl rfl rfl rfl

/-- C10 counterexample: with observer list `[0, 1]`, registering callback
`0` again and invoking the returned deregistration once yields `[1, 0]`,
not the original list `[0, 1]`: the round-trip removes the FIRST matching
registration (Python `list.remove`), so it does not restore the observer
list when the callback was already registered. -/
theorem C10_counterexample :
    unregister_callback (register_callback [0, 1] 0) 0 = some [1, 0] ∧
    some [1, 0] ≠ some [0, 1] := by
  exact ⟨rfl, by decide⟩

/-- C10 amended: `register_callback` appends; the deregistration removes
exactly one registration (the first matching one), so the round-trip
restores the observer list whenever the callback was not already
registered; a second invocation after the only registration is gone, or
`unregister_callback` for an unregistered callback, raises `ValueError`
(modelled as `none`) rather than being a no-op. -/
theorem C10_register_unregister :
    (∀ (cbs : List Nat) (c : Nat), c ∉ cbs →
        unregister_callback (register_callback cbs c) c = some cbs) ∧
    (∀ (cbs : List Nat) (c : Nat), c ∉ cbs →
        unregister_callback cbs c = none) ∧
    (∀ (cbs : List Nat) (c : Nat) (l : List Nat),
        unregister_callback cbs c = some l → l.count c + 1 = cbs.count c) :=
  ⟨fun cbs c h => list_remove_append_singleton cbs c h,
    fun cbs c h => list_remove_not_mem cbs c h,
    fun cbs c l h => list_remove_count cbs c l h⟩

/-- C3 counterexample: in the initial device-list parsing
(`KevoLock.__init__`) an unrecognized bolt-state string (`"Garbage"`) sets
`is_locked = some false` and `is_jammed = some false`, not null/unknown as
the claim states for both paths (and the constructor logs no warning). -/
theorem C3_counterexample :
    (KevoLock_init ⟨"id1", "n", "f", 7, "Garbage", "b"⟩).is_locked = some false ∧
    (KevoLock_init ⟨"id1", "n", "f", 7, "Garbage", "b"⟩).is_locked ≠ none ∧
    (KevoLock_init ⟨"id1", "n", "f", 7, "Garbage", "b"⟩).is_jammed = some false ∧
    (KevoLock_init ⟨"id1", "n", "f", 7, "Garbage", "b"⟩).is_jammed ≠ none := by
  refine ⟨rfl, by decide, rfl, by decide⟩

/-- C3 amended: the three listed bolt states map to the claimed
`(is_locked, is_jammed)` pairs in BOTH paths; an unrecognized bolt state in
the STREAM path sets both fields to null/unknown and logs a warning, while
in the initial device-list constructor it sets both to `false` with no
warning. -/
theorem C3_bolt_state_mapping :
    (∀ l : LockJson, l.boltState = "Locked" →
        (KevoLock_init l).is_locked = some true ∧
        (KevoLock_init l).is_jammed = some false) ∧
    (∀ l : LockJson, l.boltState = "LockedBoltJam" →
        (KevoLock_init l).is_locked = some true ∧
        (KevoLock_init l).is_jammed = some true) ∧
    (∀ l : LockJson, l.boltState = "UnlockedBoltJam" →
        (KevoLock_init l).is_locked = some false ∧
        (KevoLock_init l).is_jammed = some true) ∧
    (∀ l : LockJson, l.boltState ≠ "Locked" → l.boltState ≠ "LockedBoltJam" →
        l.boltState ≠ "BoltJam" → l.boltState ≠ "UnlockedBoltJam" →
        (KevoLock_init l).is_locked = some false ∧
        (KevoLock_init l).is_jammed = some false) ∧
    (∀ (prev : Device) (d : FrameData), d.boltState = LOCK_STATE_LOCK →
        (update_lock prev d).1.is_locked = some true ∧
        (update_lock prev d).1.is_jammed = some false ∧
        (update_lock prev d).2 = false) ∧
    (∀ (prev : Device) (d : FrameData), d.boltState = LOCK_STATE_LOCK_JAM →
        (update_lock prev d).1.is_locked = some true ∧
        (update_lock prev d).1.is_jammed = some true ∧
        (update_lock prev d).2 = false) ∧
    (∀ (prev : Device) (d : FrameData), d.boltState = LOCK_STATE_UNLOCK_JAM →
        (update_lock prev d).1.is_locked = some false ∧
        (update_lock prev d).1.is_jammed = some true ∧
        (update_lock prev d).2 = false) ∧
    (∀ (prev : Device) (d : FrameData),
        d.boltState ≠ LOCK_STATE_LOCK → d.boltState ≠ LOCK_STATE_UNLOCK →
        d.boltState ≠ LOCK_STATE_JAM → d.boltState ≠ LOCK_STATE_LOCK_JAM →
        d.boltState ≠ LOCK_STATE_UNLOCK_JAM →
        (update_lock prev d).1.is_locked = none ∧
        (update_lock prev d).1.is_jammed = none ∧
        (update_lock prev d).2 = true) :=
  ⟨fun l h => KevoLock_init_locked l h,
    fun l h => KevoLock_init_lock_jam l h,
    fun l h => KevoLock_init_unlock_jam l h,
    fun l h1 h2 h3 h4 => KevoLock_init_unknown l h1 h2 h3 h4,
    fun prev d h => update_lock_locked prev d h,
    fun prev d h => update_lock_lock_jam prev d h,
    fun prev d h => update_lock_unlock_jam prev d h,
    fun prev d h1 h2 h3 h4 h5 => update_lock_unknown prev d h1 h2 h3 h4 h5⟩

/-- C3 witness for `C3_bolt_state_mapping`. -/
theorem C3_bolt_state_mapping_witness :
    (KevoLock_init ⟨"a", "n", "f", 1, "Locked", "b"⟩).is_locked = some true ∧
    (KevoLock_init ⟨"a", "n", "f", 1, "Odd", "b"⟩).is_locked = some false ∧
    (update_lock ⟨"a", "n", "f", 1, false, false, none, none, "b"⟩
        ⟨"a", 2, "LockedBoltJam", none⟩).1.is_jammed = some true ∧
    (update_lock ⟨"a", "n", "f", 1, false, false, some true, some false, "b"⟩
        ⟨"a", 2, "Odd", none⟩).1.is_locked = none ∧
    (update_lock ⟨"a", "n", "f", 1, false, false, some true, some false, "b"⟩
        ⟨"a", 2, "Odd", none⟩).2 = true :=
  ⟨(C3_bolt_state_mapping.1 ⟨"a", "n", "f", 1, "Locked", "b"⟩ rfl).1,
    (C3_bolt_state_mapping.2.2.2.1 ⟨"a", "n", "f", 1, "Odd", "b"⟩
      (by decide) (by decide) (by decide) (by decide)).1,
    (C3_bolt_state_mapping.2.2.2.2.2.1
      ⟨"a", "n", "f", 1, false, false, none, none, "b"⟩
      ⟨"a", 2, "LockedBoltJam", none⟩ rfl).2.1,
    (C3_bolt_state_mapping.2.2.2.2.2.2.2
      ⟨"a", "n", "f", 1, false, false, some true, some false, "b"⟩
      ⟨"a", 2, "Odd", none⟩ (by decide) (by decide) (by decide) (by decide)
      (by decide)).1,
    (C3_bolt_state_mapping.2.2.2.2.2.2.2
      ⟨"a", "n", "f", 1, false, false, some true, some false, "b"⟩
      ⟨"a", 2, "Odd", none⟩ (by decide) (by decide) (by decide) (by decide)
      (by decide)).2.2⟩

/-- Environment for the C7 scenario: a device list with one lock whose
reported battery level is 3, always served successfully. -/
def C7_env : LocksEnv :=
  { now := 0
    refreshResp := fun _ => ⟨200, some "B", some "I2", some "R2", some 3600⟩
    callStatus := fun _ => 200
    callLocks := fun _ => [⟨"id1", "n", "f", 3, "Locked", "b"⟩] }

/-- C7 counterexample: after the first population, a stream frame updates
the tracked record's battery to 9 in place; a second `get_locks` call then
rebuilds the record from the REST response, resetting the battery to 3 —
the record was recreated, not only updated by stream events. -/
theorem C7_counterexample :
    (get_locks C7_env ⟨"A", "I", "R", 1000000⟩ []).2.2.1 =
      [⟨"id1", "n", "f", 3, false, false, some true, some false, "b"⟩] ∧
    (process_message [⟨"id1", "n", "f", 3, false, false, some true, some false, "b"⟩]
        [] ⟨"LockStatus", ⟨"id1", 9, "Locked", none⟩⟩).devices =
      [⟨"id1", "n", "f", 9, false, false, some true, some false, "b"⟩] ∧
    (get_locks C7_env ⟨"A", "I", "R", 1000000⟩
        [⟨"id1", "n", "f", 9, false, false, some true, some false, "b"⟩]).2.2.1 =
      [⟨"id1", "n", "f", 3, false, false, some true, some false, "b"⟩] ∧
    ([⟨"id1", "n", "f", 3, false, false, some true, some false, "b"⟩] : List Device) ≠
      [⟨"id1", "n", "f", 9, false, false, some true, some false, "b"⟩] := by
  refine ⟨rfl, rfl, rfl, by decide⟩

/-- C7 amended: stream frames update tracked Device records strictly in
place — the list of lock ids is preserved and every record whose lock_id
differs from the frame's is untouched (identity is lock_id) — while each
SUCCESSFUL `get_locks` call rebuilds the entire device list afresh from the
REST response. -/
theorem C7_stream_updates_in_place :
    (∀ (devs : List Device) (cbs : List Nat) (f : Frame),
        ((process_message devs cbs f).devices).map Device.lock_id =
          devs.map Device.lock_id) ∧
    (∀ (devs : List Device) (cbs : List Nat) (f : Frame) (i : Nat) (d : Device),
        devs.get? i = some d → d.lock_id ≠ f.messageData.lockId →
        (process_message devs cbs f).devices.get? i = some d) ∧
    (∀ (env : LocksEnv) (ts : TokenSet) (devs0 l : List Device),
        (get_locks env ts devs0).2.2.2 = .ok l →
        l = (env.callLocks 0).map KevoLock_init) :=
  ⟨fun devs cbs f => process_message_map_lock_id devs cbs f,
    fun devs cbs f i d hi hne =>
      process_message_other_unchanged devs cbs f i d hi hne,
    fun env ts devs0 l h => (get_locks_ok_rebuild env ts devs0 l h).1⟩

/-- C7 witness for `C7_stream_updates_in_place`. -/
theorem C7_stream_updates_witness :
    (process_message [⟨"id1", "n", "f", 3, false, false, some true, some false, "b"⟩]
        [] ⟨"LockStatus", ⟨"other", 9, "Locked", none⟩⟩).devices.get? 0 =
      some ⟨"id1", "n", "f", 3, false, false, some true, some false, "b"⟩ ∧
    (get_locks C7_env ⟨"A", "I", "R", 1000000⟩ []).2.2.1.map Device.lock_id =
      ["id1"] :=
  ⟨C7_stream_updates_in_place.2.1
      [⟨"id1", "n", "f", 3, false, false, some true, some false, "b"⟩] []
      ⟨"LockStatus", ⟨"other", 9, "Locked", none⟩⟩ 0
      ⟨"id1", "n", "f", 3, false, false, some true, some false, "b"⟩ rfl
      (by decide),
    by
      have := C7_stream_updates_in_place.2.2 C7_env ⟨"A", "I", "R", 1000000⟩ []
        ((C7_env.callLocks 0).map KevoLock_init) rfl
      exact rfl⟩

/-- C10 witness for `C10_register_unregister`. -/
theorem C10_register_unregister_witness :
    unregister_callback (register_callback [1, 2] 0) 0 = some [1, 2] ∧
    unregister_callback [1, 2] 0 = none ∧
    [1, 0].count 0 + 1 = ([0, 1, 0] : List Nat).count 0 :=
  ⟨C10_register_unregister.1 [1, 2] 0 (by decide),
    C10_register_unregister.2.1 [1, 2] 0 (by decide),
    C10_register_unregister.2.2 [0, 1, 0] 0 [1, 0] (by decide)⟩

end Kevo
